import Mathlib

/-!
Shallow embedding of `streamlit_app.py`, the single source file of this
repository.  The script is a thin UI layer: it stores per-session state
(uploaded document path, chat history, last generated artifacts), and each
page run re-executes the whole script top to bottom — file upload handling,
then four tabs (Document Overview, Actions, Chat & QA, Exports) — dispatching
button clicks to five external functions of the `qa_agent` module.

The embedding models one page run as a pure function `runApp` over:
  * an `Env` of oracles for the five external `qa_agent` functions (each may
    fail, modelled as `Except String String`) and for the total
    `bytes.decode(errors="replace")` of the standard library;
  * a flat file system `FS` (association list from path to byte list);
  * the `Inputs` of this run (widget values and which buttons were clicked);
  * the `SessionState` carried over from the previous run.
It returns the new session state, the new file system, the ordered list of
UI events emitted (messages, metrics, download buttons, chat bubbles, and a
record of every external call with its exact arguments), and an optional
uncaught error.  An uncaught Python exception aborts the script at the point
it is raised: the run stops, keeping the session-state mutations already
performed, and the remaining tabs emit nothing.

Purely decorative output of the script (CSS block, page header, progress
bar, subheaders, horizontal rules, sidebar tip) is not modelled; every
state mutation, external call, guard, and user-visible message or control
of the script is.  Python truthiness of the state fields (`None` and the
empty string are falsy) is modelled by `strTruthy`.
-/

namespace RagApp

/-- A file handed to the upload widget: original name and raw bytes. -/
structure UploadedFile where
  name : String
  content : List Nat
deriving DecidableEq

/-- One entry of the chat history, `{"q": query, "a": ans}` in the script. -/
structure ChatTurn where
  q : String
  a : String
deriving DecidableEq

/-- The per-session state bag `st.session_state`.  `chat_history` is
initialised to `[]` on first use by the script, so it is modelled as an
always-present list; the optional text fields are `None` until first set. -/
structure SessionState where
  uploaded_path : Option String := none
  chat_history : List ChatTurn := []
  last_summary : Option String := none
  last_insights : Option String := none
  last_mcqs : Option String := none
deriving DecidableEq

/-- Python truthiness of an optional string field: `None` and `""` are
falsy, any non-empty string is truthy. -/
def strTruthy : Option String → Bool
  | none => false
  | some s => !(s == "")

/-- Arguments of one call into the external `qa_agent` module, in the order
the script passes them. -/
inductive ExtCall where
  | summary (path model : String) (temperature : ℚ)
  | insights (path model : String) (chunk_size : ℤ)
  | mcq (path : String) (num_questions : ℤ) (model : String)
  | ask (path query model : String)
  | index (path : String) (chunk_size : ℤ)
deriving DecidableEq

/-- One user-visible event emitted while the script runs, in program order.
External calls are recorded as events so that theorems can count them. -/
inductive UIEvent where
  | warning (msg : String)
  | info (msg : String)
  | success (msg : String)
  | errorBox (msg : String)
  | textBox (s : String)
  | written (s : String)
  | metric (label value : String)
  | download (label data fileName : String)
  | chatTurnView (userMsg aiMsg : String)
  | toast (msg : String)
  | balloons
  | call (c : ExtCall)
deriving DecidableEq

/-- Oracles for the external world: the five `qa_agent` functions imported
by the script (argument order as in the call sites; a `Except.error` models
a raised exception) and the total `bytes.decode(errors="replace")`, which by
contract never fails (invalid bytes are replaced). -/
structure Env where
  generate_summary : String → String → ℚ → Except String String
  generate_insights : String → String → ℤ → Except String String
  generate_mcq : String → ℤ → String → Except String String
  answer_question : String → String → String → Except String String
  build_retrieval_index : String → ℤ → Except String String
  decodeReplace : List Nat → String

/-- The user interaction of one page run: the file in the upload widget (if
any), the sidebar widget values, which buttons were clicked, and the text
of the question input. -/
structure Inputs where
  uploaded_file : Option UploadedFile
  modelIndex : Fin 3
  tempRaw : ℚ
  chunkRaw : ℤ
  genSummaryClicked : Bool
  genInsightsClicked : Bool
  genMcqClicked : Bool
  reindexClicked : Bool
  askClicked : Bool
  query : String
deriving DecidableEq

/-- `valid_models` of the sidebar selectbox. -/
def valid_models : List String := ["gpt-4o-mini", "gpt-4o", "gpt-3.5-turbo"]

/-- The selectbox can only yield one of its listed options; the script's
default is index 0.  Modelled by indexing into `valid_models`. -/
def selectedModel (i : Fin 3) : String := valid_models.getD i.val ""

/-- The temperature slider `st.slider(..., 0.0, 1.0, 0.3, 0.05)` clamps the
value into its bounds.  Temperature is a pass-through value in this script,
so it is modelled as a rational. -/
def selectedTemp (x : ℚ) : ℚ := max 0 (min 1 x)

/-- The chunk-size widget `st.number_input(..., 256, 4096, 1024, 64)`
clamps the value into its integer bounds. -/
def selectedChunk (x : ℤ) : ℤ := max 256 (min 4096 x)

/-- Default of the temperature slider (`0.3`). -/
def temp_default : ℚ := 3 / 10

/-- Default of the chunk-size input (`1024`). -/
def chunk_default : ℤ := 1024

/-- Default of the model selectbox (`index=0`). -/
def model_default : String := selectedModel 0

/-- Flat file system: association list from path to file bytes; the first
binding of a path is its current content. -/
abbrev FS := List (String × List Nat)

/-- Writing a file (mode "wb" truncates, so the new content shadows any
older binding of the same path). -/
def fsWrite (fs : FS) (p : String) (d : List Nat) : FS := (p, d) :: fs

/-- Reading a file; `none` models any OS-level failure to open or stat. -/
def fsRead (fs : FS) (p : String) : Option (List Nat) := fs.lookup p

/-- Python `s.endswith(t)`: whether `t` is a suffix of `s`, at the
character level. -/
def strEndsWith (s t : String) : Bool := t.data.isSuffixOf s.data

/-- `Path(p).name`: the component after the last slash. -/
def pathBasename (p : String) : String :=
  String.mk ((p.data.reverse.takeWhile (fun c => c != '/')).reverse)

/-- `dir / name` path concatenation of `pathlib`. -/
def pathJoin (dir fileName : String) : String := dir ++ "/" ++ fileName

/-- `tempfile.gettempdir()`, a fixed process-local temporary directory. -/
def tmp_root : String := "/tmp"

/-- The fixed upload directory `Path(tempfile.gettempdir()) / "uploaded_document"`. -/
def upload_dir : String := pathJoin tmp_root "uploaded_document"

/-- Result of one page run: final session state, file system, emitted
events in order, and the uncaught exception that aborted the run, if any. -/
structure RunResult where
  state : SessionState
  fs : FS
  events : List UIEvent
  err : Option String
deriving DecidableEq

/-- The file-upload section: if a file is present in the widget, write its
bytes to `upload_dir / name`, record the path in session state, and emit
the success acknowledgment.  No external call, no failure path. -/
def runUpload (fs : FS) (inp : Inputs) (st : SessionState) :
    FS × SessionState × List UIEvent :=
  match inp.uploaded_file with
  | none => (fs, st, [])
  | some f =>
    let dst := pathJoin upload_dir f.name
    (fsWrite fs dst f.content,
     { st with uploaded_path := some dst },
     [UIEvent.success ("✅ File Uploaded: " ++ f.name), UIEvent.balloons])

/-- The text-preview expander: a `try` block that re-opens and reads the
file; a read failure yields the generic error message, a `.pdf` name yields
an informational note, anything else shows the first 2000 bytes decoded
with replacement.  Total: it always emits exactly one event. -/
def previewBlock (env : Env) (fs : FS) (path file_name : String) : List UIEvent :=
  match fsRead fs path with
  | none => [UIEvent.errorBox "❌ Preview unavailable."]
  | some b =>
    if strEndsWith file_name ".pdf" then
      [UIEvent.info "PDF content extraction happens during processing."]
    else
      [UIEvent.textBox (env.decodeReplace (b.take 2000))]

/-- The Document Overview tab.  With a truthy `uploaded_path` it stats the
file (an unguarded `Path(...).stat()`: a missing file raises, aborting the
run), shows the three metrics, and renders the preview; otherwise it shows
the upload prompt. -/
def runDocumentTab (env : Env) (fs : FS) (inp : Inputs) (st : SessionState) :
    List UIEvent × Option String :=
  match st.uploaded_path with
  | none => ([UIEvent.info "Please upload a file to analyze."], none)
  | some p =>
    if p == "" then ([UIEvent.info "Please upload a file to analyze."], none)
    else
      let file_name := pathBasename p
      match fsRead fs p with
      | none => ([], some "FileNotFoundError: stat")
      | some bytes =>
        ([UIEvent.metric "📁 File Name" file_name,
          UIEvent.metric "💾 Size" (toString (bytes.length / 1024) ++ " KB"),
          UIEvent.metric "⚙️ Model" (selectedModel inp.modelIndex)]
          ++ previewBlock env fs p file_name, none)

/-- Sequence two steps of the script: if the first aborted with an uncaught
exception, the second never runs. -/
def stepSeq (r : SessionState × List UIEvent × Option String)
    (k : SessionState → SessionState × List UIEvent × Option String) :
    SessionState × List UIEvent × Option String :=
  match r with
  | (st, evs, some e) => (st, evs, some e)
  | (st, evs, none) =>
    let r2 := k st
    (r2.1, evs ++ r2.2.1, r2.2.2)

/-- The "Generate Summary" button handler:
`generate_summary(uploaded_path, model=model, temperature=temp)`, stored
verbatim as `last_summary` and echoed. -/
def summaryStep (env : Env) (inp : Inputs) (p m : String) (t : ℚ)
    (st : SessionState) : SessionState × List UIEvent × Option String :=
  if inp.genSummaryClicked then
    match env.generate_summary p m t with
    | Except.error e => (st, [UIEvent.call (ExtCall.summary p m t)], some e)
    | Except.ok summary =>
      ({ st with last_summary := some summary },
       [UIEvent.call (ExtCall.summary p m t),
        UIEvent.success "🎉 Summary Generated Successfully!",
        UIEvent.written summary], none)
  else (st, [], none)

/-- The "Generate Insights" button handler:
`generate_insights(uploaded_path, model=model, chunk_size=chunk_size)`. -/
def insightsStep (env : Env) (inp : Inputs) (p m : String) (cs : ℤ)
    (st : SessionState) : SessionState × List UIEvent × Option String :=
  if inp.genInsightsClicked then
    match env.generate_insights p m cs with
    | Except.error e => (st, [UIEvent.call (ExtCall.insights p m cs)], some e)
    | Except.ok insights =>
      ({ st with last_insights := some insights },
       [UIEvent.call (ExtCall.insights p m cs),
        UIEvent.success "✅ Insights Ready!",
        UIEvent.written insights], none)
  else (st, [], none)

/-- The "Generate MCQs" button handler:
`generate_mcq(uploaded_path, num_questions=10, model=model)`. -/
def mcqStep (env : Env) (inp : Inputs) (p m : String)
    (st : SessionState) : SessionState × List UIEvent × Option String :=
  if inp.genMcqClicked then
    match env.generate_mcq p 10 m with
    | Except.error e => (st, [UIEvent.call (ExtCall.mcq p 10 m)], some e)
    | Except.ok mcqs =>
      ({ st with last_mcqs := some mcqs },
       [UIEvent.call (ExtCall.mcq p 10 m),
        UIEvent.success "✅ MCQs Generated!",
        UIEvent.written mcqs], none)
  else (st, [], none)

/-- The sidebar "Rebuild Retrieval Index" trigger, handled inside the
Actions tab: `build_retrieval_index(uploaded_path, chunk_size=chunk_size)`;
the returned status message is displayed, nothing is stored. -/
def reindexStep (env : Env) (inp : Inputs) (p : String) (cs : ℤ)
    (st : SessionState) : SessionState × List UIEvent × Option String :=
  if inp.reindexClicked then
    match env.build_retrieval_index p cs with
    | Except.error e => (st, [UIEvent.call (ExtCall.index p cs)], some e)
    | Except.ok result =>
      (st, [UIEvent.call (ExtCall.index p cs), UIEvent.success result], none)
  else (st, [], none)

/-- The Actions tab: guarded by a truthy `uploaded_path` (falsy yields the
warning and nothing runs); otherwise the three generation buttons and the
reindex trigger run in program order, each handler aborting the run if its
external call raises. -/
def runActionsTab (env : Env) (inp : Inputs) (st : SessionState) :
    SessionState × List UIEvent × Option String :=
  if !(strTruthy st.uploaded_path) then
    (st, [UIEvent.warning "⚠️ Upload a document first."], none)
  else
    let p := st.uploaded_path.getD ""
    let m := selectedModel inp.modelIndex
    let t := selectedTemp inp.tempRaw
    let cs := selectedChunk inp.chunkRaw
    stepSeq (stepSeq (stepSeq (summaryStep env inp p m t st)
      (insightsStep env inp p m cs)) (mcqStep env inp p m)) (reindexStep env inp p cs)

/-- Python `history[-5:]`: the last `n` elements (all of them when the list
is shorter). -/
def lastN (n : Nat) (l : List α) : List α := l.drop (l.length - n)

/-- The chat rendering loop `for turn in reversed(chat_history[-5:])`:
the most recent 5 turns, most recent first, each as a user and an
assistant bubble. -/
def renderChat (h : List ChatTurn) : List UIEvent :=
  ((lastN 5 h).reverse).map (fun turn =>
    UIEvent.chatTurnView ("**🧍‍♂️ You:** " ++ turn.q) ("**🤖 AI:** " ++ turn.a))

/-- The Chat & QA tab: guarded by a truthy `uploaded_path` (falsy yields an
informational prompt and nothing else).  `if st.button("Ask") and query:`
only fires on a click with a non-empty query; a successful answer appends
one `{q, a}` entry to the chat history; a raised exception aborts before the
rendering loop.  The loop then renders the last five turns in reverse. -/
def runChatTab (env : Env) (inp : Inputs) (st : SessionState) :
    SessionState × List UIEvent × Option String :=
  if !(strTruthy st.uploaded_path) then
    (st, [UIEvent.info "Upload a file to start chatting."], none)
  else
    let p := st.uploaded_path.getD ""
    let m := selectedModel inp.modelIndex
    if inp.askClicked && !(inp.query == "") then
      match env.answer_question p inp.query m with
      | Except.error e => (st, [UIEvent.call (ExtCall.ask p inp.query m)], some e)
      | Except.ok ans =>
        let st1 := { st with chat_history := st.chat_history ++ [⟨inp.query, ans⟩] }
        (st1,
         [UIEvent.call (ExtCall.ask p inp.query m),
          UIEvent.toast "AI has answered your question!"] ++ renderChat st1.chat_history,
         none)
    else (st, renderChat st.chat_history, none)

/-- The Exports tab: one download control per truthy result field; the
"no downloadable content" message is controlled by
`if not (get("last_summary") or get("last_mcqs"))` — `last_insights` is not
consulted there. -/
def runDownloadsTab (st : SessionState) : List UIEvent :=
  (if strTruthy st.last_summary then
    [UIEvent.download "⬇️ Download Summary" (st.last_summary.getD "") "summary.txt"]
   else [])
  ++ (if strTruthy st.last_insights then
    [UIEvent.download "⬇️ Download Insights" (st.last_insights.getD "") "insights.txt"]
   else [])
  ++ (if strTruthy st.last_mcqs then
    [UIEvent.download "⬇️ Download MCQs" (st.last_mcqs.getD "") "mcqs.txt"]
   else [])
  ++ (if !(strTruthy st.last_summary || strTruthy st.last_mcqs) then
    [UIEvent.info "No downloadable content yet. Run an action first!"]
   else [])

/-- One full page run of `streamlit_app.py`: upload handling, then the four
tabs in order.  An uncaught exception stops the run where it is raised,
keeping the session-state mutations already performed. -/
def runApp (env : Env) (fs0 : FS) (inp : Inputs) (st0 : SessionState) : RunResult :=
  let u := runUpload fs0 inp st0
  let fs1 := u.1
  let st1 := u.2.1
  let evU := u.2.2
  let d := runDocumentTab env fs1 inp st1
  match d.2 with
  | some e => ⟨st1, fs1, evU ++ d.1, some e⟩
  | none =>
    let a := runActionsTab env inp st1
    match a.2.2 with
    | some e => ⟨a.1, fs1, evU ++ d.1 ++ a.2.1, some e⟩
    | none =>
      let c := runChatTab env inp a.1
      match c.2.2 with
      | some e => ⟨c.1, fs1, evU ++ d.1 ++ a.2.1 ++ c.2.1, some e⟩
      | none =>
        ⟨c.1, fs1, evU ++ d.1 ++ a.2.1 ++ c.2.1 ++ runDownloadsTab c.1, none⟩

/-- The external calls recorded in an event list, in order. -/
def allCalls (evs : List UIEvent) : List ExtCall :=
  evs.filterMap (fun e => match e with
    | UIEvent.call c => some c
    | _ => none)

/-- The `generate_summary` calls (path, model, temperature) in an event list. -/
def summaryCalls (evs : List UIEvent) : List (String × String × ℚ) :=
  (allCalls evs).filterMap (fun c => match c with
    | ExtCall.summary p m t => some (p, m, t)
    | _ => none)

/-- The `answer_question` calls (path, query, model) in an event list. -/
def askCalls (evs : List UIEvent) : List (String × String × String) :=
  (allCalls evs).filterMap (fun c => match c with
    | ExtCall.ask p q m => some (p, q, m)
    | _ => none)

/-- Whether some warning box is shown in an event list. -/
def hasWarning (evs : List UIEvent) : Bool :=
  evs.any (fun e => match e with
    | UIEvent.warning _ => true
    | _ => false)

/-- The file names of the download controls rendered in an event list. -/
def downloadNames (evs : List UIEvent) : List String :=
  evs.filterMap (fun e => match e with
    | UIEvent.download _ _ fn => some fn
    | _ => none)

/-- Whether the Exports tab's "no downloadable content" message is shown. -/
def hasNoContentMsg (evs : List UIEvent) : Bool :=
  evs.contains (UIEvent.info "No downloadable content yet. Run an action first!")

/-- The (user bubble, assistant bubble) pairs rendered by the chat loop. -/
def renderedTurns (evs : List UIEvent) : List (String × String) :=
  evs.filterMap (fun e => match e with
    | UIEvent.chatTurnView u a => some (u, a)
    | _ => none)

/-! ### Helper lemmas -/

theorem allCalls_append (a b : List UIEvent) :
    allCalls (a ++ b) = allCalls a ++ allCalls b := by
  simp [allCalls]

theorem allCalls_nil : allCalls [] = [] := rfl

theorem allCalls_cons (e : UIEvent) (l : List UIEvent) :
    allCalls (e :: l) =
      (match e with
        | UIEvent.call c => [c]
        | _ => []) ++ allCalls l := by
  cases e <;> simp [allCalls]

theorem hasWarning_nil : hasWarning [] = false := rfl

theorem hasWarning_cons (e : UIEvent) (l : List UIEvent) :
    hasWarning (e :: l) =
      ((match e with
        | UIEvent.warning _ => true
        | _ => false) || hasWarning l) := by
  cases e <;> simp [hasWarning]

theorem summaryCalls_append (a b : List UIEvent) :
    summaryCalls (a ++ b) = summaryCalls a ++ summaryCalls b := by
  simp [summaryCalls, allCalls_append]

theorem askCalls_append (a b : List UIEvent) :
    askCalls (a ++ b) = askCalls a ++ askCalls b := by
  simp [askCalls, allCalls_append]

theorem hasWarning_append (a b : List UIEvent) :
    hasWarning (a ++ b) = (hasWarning a || hasWarning b) := by
  simp [hasWarning]

theorem allCalls_renderChat (h : List ChatTurn) : allCalls (renderChat h) = [] := by
  simp [allCalls, renderChat, List.filterMap_map, Function.comp]

theorem summaryCalls_renderChat (h : List ChatTurn) : summaryCalls (renderChat h) = [] := by
  simp [summaryCalls, allCalls_renderChat]

theorem askCalls_renderChat (h : List ChatTurn) : askCalls (renderChat h) = [] := by
  simp [askCalls, allCalls_renderChat]

theorem hasWarning_renderChat (h : List ChatTurn) : hasWarning (renderChat h) = false := by
  simp [hasWarning, renderChat, List.any_map, Function.comp]

theorem allCalls_downloads (st : SessionState) : allCalls (runDownloadsTab st) = [] := by
  unfold runDownloadsTab
  split <;> split <;> split <;> split <;> rfl

theorem hasWarning_downloads (st : SessionState) : hasWarning (runDownloadsTab st) = false := by
  unfold runDownloadsTab
  split <;> split <;> split <;> split <;> rfl

theorem fsRead_fsWrite (fs : FS) (p : String) (d : List Nat) :
    fsRead (fsWrite fs p d) p = some d := by
  simp [fsRead, fsWrite, List.lookup]

/-! ### C1: Exports tab -/

/-- A session state whose only non-empty result field is `last_insights`. -/
def stC1 : SessionState :=
  { uploaded_path := none
    chat_history := []
    last_summary := none
    last_insights := some "insight text"
    last_mcqs := none }

/-- C1 counterexample: with `last_insights` non-empty and the other two
result fields empty, the "no downloadable content" message is shown even
though not all three result fields are absent or empty (the code's message
condition checks only `last_summary` and `last_mcqs`), refuting the claimed
"exactly when all three are absent or empty". -/
theorem C1_counterexample :
    ¬ (hasNoContentMsg (runDownloadsTab stC1) = true ↔
        (strTruthy stC1.last_summary = false ∧ strTruthy stC1.last_insights = false ∧
         strTruthy stC1.last_mcqs = false)) := by
  decide

/-- C1 (amended): the Export tab renders the `summary.txt` download control
iff `last_summary` is non-empty (likewise `insights.txt` for `last_insights`
and `mcqs.txt` for `last_mcqs`), and the "no downloadable content" message
is shown exactly when `last_summary` and `last_mcqs` are both absent or
empty — `last_insights` is not consulted by the message condition. -/
theorem C1_export_controls (st : SessionState) :
    ((downloadNames (runDownloadsTab st)).contains "summary.txt" = strTruthy st.last_summary) ∧
    ((downloadNames (runDownloadsTab st)).contains "insights.txt" = strTruthy st.last_insights) ∧
    ((downloadNames (runDownloadsTab st)).contains "mcqs.txt" = strTruthy st.last_mcqs) ∧
    (hasNoContentMsg (runDownloadsTab st) =
      !(strTruthy st.last_summary || strTruthy st.last_mcqs)) := by
  cases hs : strTruthy st.last_summary <;>
    cases hi : strTruthy st.last_insights <;>
      cases hm : strTruthy st.last_mcqs <;>
        simp [runDownloadsTab, downloadNames, hasNoContentMsg, hs, hi, hm]

/-! ### C9: sidebar configuration ranges -/

/-- Whether the configuration arguments of an external call are within the
ranges enforced by the sidebar widgets. -/
def callConfigOk (c : ExtCall) : Bool :=
  match c with
  | ExtCall.summary _ m t => valid_models.contains m && decide (0 ≤ t) && decide (t ≤ 1)
  | ExtCall.insights _ m cs => valid_models.contains m && decide (256 ≤ cs) && decide (cs ≤ 4096)
  | ExtCall.mcq _ n m => valid_models.contains m && (n == 10)
  | ExtCall.ask _ _ m => valid_models.contains m
  | ExtCall.index _ cs => decide (256 ≤ cs) && decide (cs ≤ 4096)

theorem selectedModel_mem : ∀ i : Fin 3, selectedModel i ∈ valid_models := by
  decide

theorem selectedTemp_nonneg (x : ℚ) : 0 ≤ selectedTemp x := le_max_left 0 _

theorem selectedTemp_le_one (x : ℚ) : selectedTemp x ≤ 1 :=
  max_le zero_le_one (min_le_left 1 x)

theorem selectedChunk_lb (x : ℤ) : 256 ≤ selectedChunk x := le_max_left 256 _

theorem selectedChunk_ub (x : ℤ) : selectedChunk x ≤ 4096 :=
  max_le (by norm_num) (min_le_left 4096 x)

theorem summaryStep_calls_ok (env : Env) (inp : Inputs) (p : String) (i : Fin 3)
    (x : ℚ) (st : SessionState) :
    ((allCalls (summaryStep env inp p (selectedModel i) (selectedTemp x) st).2.1).all
      callConfigOk) = true := by
  unfold summaryStep
  cases hc : inp.genSummaryClicked <;>
    simp [allCalls, callConfigOk, selectedModel_mem, selectedTemp_nonneg,
      selectedTemp_le_one]
  cases h : env.generate_summary p (selectedModel i) (selectedTemp x) <;>
    simp [allCalls, callConfigOk, selectedModel_mem, selectedTemp_nonneg,
      selectedTemp_le_one]

theorem insightsStep_calls_ok (env : Env) (inp : Inputs) (p : String) (i : Fin 3)
    (y : ℤ) (st : SessionState) :
    ((allCalls (insightsStep env inp p (selectedModel i) (selectedChunk y) st).2.1).all
      callConfigOk) = true := by
  unfold insightsStep
  cases hc : inp.genInsightsClicked <;>
    simp [allCalls, callConfigOk, selectedModel_mem, selectedChunk_lb, selectedChunk_ub]
  cases h : env.generate_insights p (selectedModel i) (selectedChunk y) <;>
    simp [allCalls, callConfigOk, selectedModel_mem, selectedChunk_lb, selectedChunk_ub]

theorem mcqStep_calls_ok (env : Env) (inp : Inputs) (p : String) (i : Fin 3)
    (st : SessionState) :
    ((allCalls (mcqStep env inp p (selectedModel i) st).2.1).all callConfigOk) = true := by
  unfold mcqStep
  cases hc : inp.genMcqClicked <;>
    simp [allCalls, callConfigOk, selectedModel_mem]
  cases h : env.generate_mcq p 10 (selectedModel i) <;>
    simp [allCalls, callConfigOk, selectedModel_mem]

theorem reindexStep_calls_ok (env : Env) (inp : Inputs) (p : String)
    (y : ℤ) (st : SessionState) :
    ((allCalls (reindexStep env inp p (selectedChunk y) st).2.1).all callConfigOk) = true := by
  unfold reindexStep
  cases hc : inp.reindexClicked <;>
    simp [allCalls, callConfigOk, selectedChunk_lb, selectedChunk_ub]
  cases h : env.build_retrieval_index p (selectedChunk y) <;>
    simp [allCalls, callConfigOk, selectedChunk_lb, selectedChunk_ub]

theorem stepSeq_calls_ok (r : SessionState × List UIEvent × Option String)
    (k : SessionState → SessionState × List UIEvent × Option String)
    (hr : ((allCalls r.2.1).all callConfigOk) = true)
    (hk : ∀ st, ((allCalls (k st).2.1).all callConfigOk) = true) :
    ((allCalls (stepSeq r k).2.1).all callConfigOk) = true := by
  obtain ⟨st, evs, err⟩ := r
  cases err with
  | none =>
    have h2 := hk st
    simp_all [stepSeq, allCalls_append, List.all_append]
  | some e => simpa [stepSeq] using hr

theorem runActionsTab_calls_ok (env : Env) (inp : Inputs) (st : SessionState) :
    ((allCalls (runActionsTab env inp st).2.1).all callConfigOk) = true := by
  unfold runActionsTab
  cases hg : strTruthy st.uploaded_path
  · simp [allCalls]
  · simp only [Bool.not_true, Bool.false_eq_true, if_false]
    exact stepSeq_calls_ok _ _
      (stepSeq_calls_ok _ _
        (stepSeq_calls_ok _ _ (summaryStep_calls_ok env inp _ inp.modelIndex inp.tempRaw st)
          (fun st1 => insightsStep_calls_ok env inp _ inp.modelIndex inp.chunkRaw st1))
        (fun st2 => mcqStep_calls_ok env inp _ inp.modelIndex st2))
      (fun st3 => reindexStep_calls_ok env inp _ inp.chunkRaw st3)

theorem runChatTab_calls_ok (env : Env) (inp : Inputs) (st : SessionState) :
    ((allCalls (runChatTab env inp st).2.1).all callConfigOk) = true := by
  unfold runChatTab
  cases hg : strTruthy st.uploaded_path
  · simp [allCalls]
  · simp only [Bool.not_true, Bool.false_eq_true, if_false]
    cases hc : inp.askClicked && !(inp.query == "")
    · simp [allCalls_renderChat]
    · simp only [if_true]
      cases h : env.answer_question (st.uploaded_path.getD "") inp.query
          (selectedModel inp.modelIndex) <;>
        simp [allCalls, allCalls_append, List.all_append, allCalls_renderChat,
          callConfigOk, selectedModel_mem]
      intro x hx
      simp only [renderChat, List.mem_map] at hx
      obtain ⟨t, ht, hxe⟩ := hx
      subst hxe
      rfl

theorem runDocumentTab_calls_nil (env : Env) (fs : FS) (inp : Inputs) (st : SessionState) :
    allCalls (runDocumentTab env fs inp st).1 = [] := by
  unfold runDocumentTab previewBlock
  cases st.uploaded_path with
  | none => rfl
  | some p =>
    cases hp : p == ""
    · cases h : fsRead fs p with
      | none => simp [hp, h, allCalls]
      | some b =>
        cases he : strEndsWith (pathBasename p) ".pdf" <;> simp [hp, h, he, allCalls]
    · simp [hp, allCalls]

theorem runUpload_calls_nil (fs : FS) (inp : Inputs) (st : SessionState) :
    allCalls (runUpload fs inp st).2.2 = [] := by
  unfold runUpload
  cases inp.uploaded_file <;> rfl

/-- C9: every external call performed by any page run carries a model
identifier from the enumerated set, a temperature in `[0, 1]`, a chunk size
in `[256, 4096]`, and an MCQ count of 10 — enforced by the sidebar widgets —
and the widget defaults are `gpt-4o-mini`, `0.3` and `1024`, each within
its own range (so defaults pass through the clamps unchanged). -/
theorem C9_config_ranges (env : Env) (fs : FS) (inp : Inputs) (st : SessionState) :
    ((allCalls (runApp env fs inp st).events).all callConfigOk = true) ∧
    model_default = "gpt-4o-mini" ∧
    selectedTemp temp_default = temp_default ∧
    selectedChunk chunk_default = chunk_default := by
  refine ⟨?_, by decide, by norm_num [selectedTemp, temp_default],
    by decide⟩
  unfold runApp
  cases hd : (runDocumentTab env (runUpload fs inp st).1 inp (runUpload fs inp st).2.1).2 with
  | some e =>
    simp [hd, allCalls_append, List.all_append, runUpload_calls_nil,
      runDocumentTab_calls_nil]
  | none =>
    simp only [hd]
    cases ha : (runActionsTab env inp (runUpload fs inp st).2.1).2.2 with
    | some e =>
      simp [ha, allCalls_append, List.all_append, runUpload_calls_nil,
        runDocumentTab_calls_nil, runActionsTab_calls_ok]
    | none =>
      simp only [ha]
      cases hc : (runChatTab env inp (runActionsTab env inp (runUpload fs inp st).2.1).1).2.2 with
      | some e =>
        simp [hc, allCalls_append, List.all_append, runUpload_calls_nil,
          runDocumentTab_calls_nil, runActionsTab_calls_ok, runChatTab_calls_ok]
      | none =>
        simp [hc, allCalls_append, List.all_append, runUpload_calls_nil,
          runDocumentTab_calls_nil, runActionsTab_calls_ok, runChatTab_calls_ok,
          allCalls_downloads]

theorem allCalls_previewBlock (env : Env) (fs : FS) (p fn : String) :
    allCalls (previewBlock env fs p fn) = [] := by
  unfold previewBlock
  cases h : fsRead fs p with
  | none => rfl
  | some b => cases he : strEndsWith fn ".pdf" <;> simp [he, allCalls]

theorem hasWarning_previewBlock (env : Env) (fs : FS) (p fn : String) :
    hasWarning (previewBlock env fs p fn) = false := by
  unfold previewBlock
  cases h : fsRead fs p with
  | none => rfl
  | some b => cases he : strEndsWith fn ".pdf" <;> simp [he, hasWarning]

/-! ### C4: missing-document guard -/

/-- C4: with no uploaded document (and no new upload in this run), a page
run — whatever buttons were clicked — performs zero external calls, shows a
visible warning, leaves the session state unchanged, and raises nothing. -/
theorem C4_missing_document_guard (env : Env) (fs : FS) (inp : Inputs) (st : SessionState)
    (hpath : st.uploaded_path = none) (hup : inp.uploaded_file = none) :
    (runApp env fs inp st).state = st ∧
    allCalls (runApp env fs inp st).events = [] ∧
    hasWarning (runApp env fs inp st).events = true ∧
    (runApp env fs inp st).err = none := by
  unfold runApp runUpload runDocumentTab runActionsTab runChatTab
  simp [hpath, hup, strTruthy, allCalls_append, allCalls_downloads, allCalls_renderChat,
    allCalls_cons, allCalls_nil, hasWarning_append, hasWarning_downloads,
    hasWarning_renderChat, hasWarning_cons, hasWarning_nil]

/-- A benign oracle environment: every external call succeeds with a fixed
string, decoding yields the empty string. -/
def envOk : Env :=
  { generate_summary := fun _ _ _ => Except.ok "S"
    generate_insights := fun _ _ _ => Except.ok "I"
    generate_mcq := fun _ _ _ => Except.ok "M"
    answer_question := fun _ _ _ => Except.ok "A"
    build_retrieval_index := fun _ _ => Except.ok "indexed"
    decodeReplace := fun _ => "" }

/-- Inputs with every button clicked but no file in the upload widget. -/
def inpC4 : Inputs :=
  { uploaded_file := none
    modelIndex := 0
    tempRaw := 1 / 2
    chunkRaw := 1000
    genSummaryClicked := true
    genInsightsClicked := true
    genMcqClicked := true
    reindexClicked := true
    askClicked := true
    query := "q" }

theorem C4_witness :
    (runApp envOk [] inpC4 ⟨none, [], none, none, none⟩).state = ⟨none, [], none, none, none⟩ ∧
    allCalls (runApp envOk [] inpC4 ⟨none, [], none, none, none⟩).events = [] ∧
    hasWarning (runApp envOk [] inpC4 ⟨none, [], none, none, none⟩).events = true ∧
    (runApp envOk [] inpC4 ⟨none, [], none, none, none⟩).err = none :=
  C4_missing_document_guard envOk [] inpC4 ⟨none, [], none, none, none⟩ rfl rfl

/-! ### C2: Generate Summary -/

/-- C2: with a document uploaded (a truthy stored path to a readable file,
no new upload this run) and only the "Generate Summary" button clicked, the
run calls `generate_summary` exactly once, with exactly the stored path, the
selected model, and the selected temperature, and stores its return value
verbatim as `last_summary`. -/
theorem C2_generate_summary (env : Env) (fs : FS) (inp : Inputs) (st : SessionState)
    (p s : String) (bytes : List Nat)
    (hpath : st.uploaded_path = some p) (hne : p ≠ "")
    (hup : inp.uploaded_file = none) (hfile : fsRead fs p = some bytes)
    (hclick : inp.genSummaryClicked = true)
    (hins : inp.genInsightsClicked = false) (hmcq : inp.genMcqClicked = false)
    (hridx : inp.reindexClicked = false) (hask : inp.askClicked = false)
    (hok : env.generate_summary p (selectedModel inp.modelIndex) (selectedTemp inp.tempRaw)
      = Except.ok s) :
    (runApp env fs inp st).state.last_summary = some s ∧
    summaryCalls (runApp env fs inp st).events =
      [(p, selectedModel inp.modelIndex, selectedTemp inp.tempRaw)] ∧
    (runApp env fs inp st).err = none := by
  have hbeq : (p == "") = false := beq_eq_false_iff_ne.mpr hne
  unfold runApp runUpload runDocumentTab runActionsTab runChatTab stepSeq
    summaryStep insightsStep mcqStep reindexStep
  simp [hpath, hbeq, hup, hfile, hclick, hins, hmcq, hridx, hask, hok, strTruthy,
    summaryCalls, allCalls_append, allCalls_previewBlock, allCalls_renderChat,
    allCalls_downloads, allCalls_cons, allCalls_nil]

/-- A singleton file system holding the uploaded document at the fixed
upload path. -/
def fsDoc : FS := [(pathJoin upload_dir "doc.csv", [65, 66])]

/-- A session state that has the document at the fixed upload path. -/
def stDoc : SessionState :=
  { uploaded_path := some (pathJoin upload_dir "doc.csv")
    chat_history := []
    last_summary := none
    last_insights := none
    last_mcqs := none }

/-- Inputs clicking only "Generate Summary". -/
def inpC2 : Inputs :=
  { uploaded_file := none
    modelIndex := 0
    tempRaw := 1 / 2
    chunkRaw := 1000
    genSummaryClicked := true
    genInsightsClicked := false
    genMcqClicked := false
    reindexClicked := false
    askClicked := false
    query := "" }

theorem C2_witness :
    (runApp envOk fsDoc inpC2 stDoc).state.last_summary = some "S" ∧
    summaryCalls (runApp envOk fsDoc inpC2 stDoc).events =
      [(pathJoin upload_dir "doc.csv", selectedModel inpC2.modelIndex,
        selectedTemp inpC2.tempRaw)] ∧
    (runApp envOk fsDoc inpC2 stDoc).err = none :=
  C2_generate_summary envOk fsDoc inpC2 stDoc (pathJoin upload_dir "doc.csv") "S"
    [65, 66] rfl (by decide) rfl rfl rfl rfl rfl rfl rfl rfl

/-! ### C3: Ask appends one chat turn -/

theorem renderedTurns_append (a b : List UIEvent) :
    renderedTurns (a ++ b) = renderedTurns a ++ renderedTurns b := by
  simp [renderedTurns]

theorem renderedTurns_nil : renderedTurns [] = [] := rfl

theorem renderedTurns_cons (e : UIEvent) (l : List UIEvent) :
    renderedTurns (e :: l) =
      (match e with
        | UIEvent.chatTurnView u a => [(u, a)]
        | _ => []) ++ renderedTurns l := by
  cases e <;> simp [renderedTurns]

theorem renderedTurns_previewBlock (env : Env) (fs : FS) (p fn : String) :
    renderedTurns (previewBlock env fs p fn) = [] := by
  unfold previewBlock
  cases h : fsRead fs p with
  | none => rfl
  | some b => cases he : strEndsWith fn ".pdf" <;> simp [he, renderedTurns]

theorem renderedTurns_downloads (st : SessionState) :
    renderedTurns (runDownloadsTab st) = [] := by
  unfold runDownloadsTab
  split <;> split <;> split <;> split <;> rfl

/-- The bubble text rendered for one chat turn. -/
def turnView (t : ChatTurn) : String × String :=
  ("**🧍‍♂️ You:** " ++ t.q, "**🤖 AI:** " ++ t.a)

theorem renderedTurns_renderChat (h : List ChatTurn) :
    renderedTurns (renderChat h) = ((lastN 5 h).reverse).map turnView := by
  unfold renderedTurns renderChat turnView
  generalize (lastN 5 h).reverse = l
  induction l with
  | nil => rfl
  | cons t l ih => simp [List.filterMap_cons, ih]

/-- C3: with a document uploaded and no other button clicked, clicking
"Ask" with a non-empty query calls `answer_question` exactly once with the
stored path, the literal query, and the selected model; appends exactly one
entry — the literal query and the literal returned answer — to the chat
history, leaving every other entry unchanged; and the rendered view shows
exactly the most recent 5 entries, most recent first. -/
theorem C3_ask_appends (env : Env) (fs : FS) (inp : Inputs) (st : SessionState)
    (p a : String) (bytes : List Nat)
    (hpath : st.uploaded_path = some p) (hne : p ≠ "")
    (hup : inp.uploaded_file = none) (hfile : fsRead fs p = some bytes)
    (hsum : inp.genSummaryClicked = false) (hins : inp.genInsightsClicked = false)
    (hmcq : inp.genMcqClicked = false) (hridx : inp.reindexClicked = false)
    (hask : inp.askClicked = true) (hq : inp.query ≠ "")
    (hok : env.answer_question p inp.query (selectedModel inp.modelIndex) = Except.ok a) :
    (runApp env fs inp st).state.chat_history = st.chat_history ++ [⟨inp.query, a⟩] ∧
    askCalls (runApp env fs inp st).events = [(p, inp.query, selectedModel inp.modelIndex)] ∧
    renderedTurns (runApp env fs inp st).events =
      ((lastN 5 (st.chat_history ++ [⟨inp.query, a⟩])).reverse).map turnView ∧
    (runApp env fs inp st).err = none := by
  have hbeq : (p == "") = false := beq_eq_false_iff_ne.mpr hne
  have hqbeq : (inp.query == "") = false := beq_eq_false_iff_ne.mpr hq
  unfold runApp runUpload runDocumentTab runActionsTab runChatTab stepSeq
    summaryStep insightsStep mcqStep reindexStep
  simp [hpath, hbeq, hqbeq, hup, hfile, hsum, hins, hmcq, hridx, hask, hok, strTruthy,
    askCalls, allCalls_append, allCalls_previewBlock, allCalls_renderChat,
    allCalls_downloads, allCalls_cons, allCalls_nil,
    renderedTurns_append, renderedTurns_previewBlock, renderedTurns_renderChat,
    renderedTurns_downloads, renderedTurns_cons, renderedTurns_nil]

/-- Inputs clicking only "Ask", with a non-empty query. -/
def inpC3 : Inputs :=
  { uploaded_file := none
    modelIndex := 0
    tempRaw := 1 / 2
    chunkRaw := 1000
    genSummaryClicked := false
    genInsightsClicked := false
    genMcqClicked := false
    reindexClicked := false
    askClicked := true
    query := "what is this" }

theorem C3_witness :
    (runApp envOk fsDoc inpC3 stDoc).state.chat_history =
      stDoc.chat_history ++ [⟨inpC3.query, "A"⟩] ∧
    askCalls (runApp envOk fsDoc inpC3 stDoc).events =
      [(pathJoin upload_dir "doc.csv", inpC3.query, selectedModel inpC3.modelIndex)] ∧
    renderedTurns (runApp envOk fsDoc inpC3 stDoc).events =
      ((lastN 5 (stDoc.chat_history ++ [⟨inpC3.query, "A"⟩])).reverse).map turnView ∧
    (runApp envOk fsDoc inpC3 stDoc).err = none :=
  C3_ask_appends envOk fsDoc inpC3 stDoc (pathJoin upload_dir "doc.csv") "A"
    [65, 66] rfl (by decide) rfl rfl rfl rfl rfl rfl rfl (by decide) rfl

/-! ### C10: Ask with an empty query -/

/-- C10: with a document uploaded, clicking "Ask" while the query text is
empty performs no external call at all and leaves the session state (in
particular the chat history) unchanged. -/
theorem C10_empty_query (env : Env) (fs : FS) (inp : Inputs) (st : SessionState)
    (p : String) (bytes : List Nat)
    (hpath : st.uploaded_path = some p) (hne : p ≠ "")
    (hup : inp.uploaded_file = none) (hfile : fsRead fs p = some bytes)
    (hsum : inp.genSummaryClicked = false) (hins : inp.genInsightsClicked = false)
    (hmcq : inp.genMcqClicked = false) (hridx : inp.reindexClicked = false)
    (hask : inp.askClicked = true) (hq : inp.query = "") :
    (runApp env fs inp st).state = st ∧
    allCalls (runApp env fs inp st).events = [] ∧
    (runApp env fs inp st).err = none := by
  have hbeq : (p == "") = false := beq_eq_false_iff_ne.mpr hne
  unfold runApp runUpload runDocumentTab runActionsTab runChatTab stepSeq
    summaryStep insightsStep mcqStep reindexStep
  simp [hpath, hbeq, hq, hup, hfile, hsum, hins, hmcq, hridx, hask, strTruthy,
    allCalls_append, allCalls_previewBlock, allCalls_renderChat,
    allCalls_downloads, allCalls_cons, allCalls_nil]

/-- Inputs clicking only "Ask", with an empty query. -/
def inpC10 : Inputs :=
  { uploaded_file := none
    modelIndex := 0
    tempRaw := 1 / 2
    chunkRaw := 1000
    genSummaryClicked := false
    genInsightsClicked := false
    genMcqClicked := false
    reindexClicked := false
    askClicked := true
    query := "" }

theorem C10_witness :
    (runApp envOk fsDoc inpC10 stDoc).state = stDoc ∧
    allCalls (runApp envOk fsDoc inpC10 stDoc).events = [] ∧
    (runApp envOk fsDoc inpC10 stDoc).err = none :=
  C10_empty_query envOk fsDoc inpC10 stDoc (pathJoin upload_dir "doc.csv")
    [65, 66] rfl (by decide) rfl rfl rfl rfl rfl rfl rfl rfl

/-! ### C5, C6: upload -/

theorem takeWhile_append_stop (pr : α → Bool) (l1 : List α) (c : α) (l2 : List α)
    (h1 : ∀ x ∈ l1, pr x = true) (hc : pr c = false) :
    (l1 ++ c :: l2).takeWhile pr = l1 := by
  induction l1 with
  | nil => simp [List.takeWhile_cons, hc]
  | cons a l ih =>
    have ha := h1 a (by simp)
    simp [List.takeWhile_cons, ha, ih (fun x hx => h1 x (by simp [hx]))]

theorem data_slash : ("/" : String).data = ['/'] := rfl

theorem data_empty : ("" : String).data = [] := rfl

/-- A slash-free file name survives `Path(dir / name).name` unchanged. -/
theorem pathBasename_pathJoin (dir n : String)
    (h : ∀ c ∈ n.data, (c != '/') = true) :
    pathBasename (pathJoin dir n) = n := by
  unfold pathBasename pathJoin
  have hdata : (dir ++ "/" ++ n).data = dir.data ++ '/' :: n.data := by
    simp [String.data_append, data_slash]
  rw [hdata, List.reverse_append, List.reverse_cons, List.append_assoc,
    List.singleton_append,
    takeWhile_append_stop (fun x => x != '/') n.data.reverse '/' dir.data.reverse
      (fun x hx => h x (List.mem_reverse.mp hx)) (by decide),
    List.reverse_reverse]

theorem pathJoin_ne_empty (d n : String) : (pathJoin d n == "") = false := by
  apply beq_eq_false_iff_ne.mpr
  intro h
  have hd := congrArg String.data h
  simp [pathJoin, String.data_append, data_slash, data_empty] at hd

/-- C5: uploading a file whose name contains no slash writes its bytes to
the fixed temporary-directory path ending in that name, records that path
as `uploaded_path`, acknowledges the upload, and the Document tab then
displays the file name and a size in KB equal to the byte size integer-
divided by 1024 (buttons unclicked in this run). -/
theorem C5_upload (env : Env) (fs : FS) (inp : Inputs) (st : SessionState)
    (f : UploadedFile)
    (hf : inp.uploaded_file = some f)
    (hname : ∀ c ∈ f.name.data, (c != '/') = true)
    (hsum : inp.genSummaryClicked = false) (hins : inp.genInsightsClicked = false)
    (hmcq : inp.genMcqClicked = false) (hridx : inp.reindexClicked = false)
    (hask : inp.askClicked = false) :
    (runApp env fs inp st).state.uploaded_path = some (pathJoin upload_dir f.name) ∧
    (∃ pre, pathJoin upload_dir f.name = pre ++ f.name) ∧
    fsRead (runApp env fs inp st).fs (pathJoin upload_dir f.name) = some f.content ∧
    UIEvent.success ("✅ File Uploaded: " ++ f.name) ∈ (runApp env fs inp st).events ∧
    UIEvent.metric "📁 File Name" f.name ∈ (runApp env fs inp st).events ∧
    UIEvent.metric "💾 Size" (toString (f.content.length / 1024) ++ " KB")
      ∈ (runApp env fs inp st).events ∧
    (runApp env fs inp st).err = none := by
  have hbase : pathBasename (pathJoin upload_dir f.name) = f.name :=
    pathBasename_pathJoin _ _ hname
  have hbeq : (pathJoin upload_dir f.name == "") = false := pathJoin_ne_empty _ _
  refine ⟨?_, ⟨upload_dir ++ "/", rfl⟩, ?_, ?_, ?_, ?_, ?_⟩ <;>
  · unfold runApp runUpload runDocumentTab runActionsTab runChatTab stepSeq
      summaryStep insightsStep mcqStep reindexStep
    simp [hf, hbase, hbeq, fsRead_fsWrite, hsum, hins, hmcq, hridx, hask, strTruthy]

/-- The file called `report.pdf` with 2500 bytes of content. -/
def fileC5 : UploadedFile := { name := "report.pdf", content := List.replicate 2500 7 }

/-- Inputs uploading `fileC5`, no buttons clicked. -/
def inpC5 : Inputs :=
  { uploaded_file := some fileC5
    modelIndex := 0
    tempRaw := 1 / 2
    chunkRaw := 1000
    genSummaryClicked := false
    genInsightsClicked := false
    genMcqClicked := false
    reindexClicked := false
    askClicked := false
    query := "" }

theorem C5_witness :
    (runApp envOk [] inpC5 ⟨none, [], none, none, none⟩).state.uploaded_path =
      some (pathJoin upload_dir fileC5.name) ∧
    (∃ pre, pathJoin upload_dir fileC5.name = pre ++ fileC5.name) ∧
    fsRead (runApp envOk [] inpC5 ⟨none, [], none, none, none⟩).fs
      (pathJoin upload_dir fileC5.name) = some fileC5.content ∧
    UIEvent.success ("✅ File Uploaded: " ++ fileC5.name)
      ∈ (runApp envOk [] inpC5 ⟨none, [], none, none, none⟩).events ∧
    UIEvent.metric "📁 File Name" fileC5.name
      ∈ (runApp envOk [] inpC5 ⟨none, [], none, none, none⟩).events ∧
    UIEvent.metric "💾 Size" (toString (fileC5.content.length / 1024) ++ " KB")
      ∈ (runApp envOk [] inpC5 ⟨none, [], none, none, none⟩).events ∧
    (runApp envOk [] inpC5 ⟨none, [], none, none, none⟩).err = none :=
  C5_upload envOk [] inpC5 ⟨none, [], none, none, none⟩ fileC5 rfl (by decide)
    rfl rfl rfl rfl rfl

/-- C6: uploading a new document while one is already tracked silently
replaces `uploaded_path` with the new file's path and leaves
`last_summary`, `last_insights`, `last_mcqs`, and `chat_history` unchanged:
prior cached results are not invalidated, no warning is emitted, nothing is
raised (buttons unclicked in this run). -/
theorem C6_second_upload (env : Env) (fs : FS) (inp : Inputs) (st : SessionState)
    (f : UploadedFile) (p0 : String)
    (hf : inp.uploaded_file = some f) (hprev : st.uploaded_path = some p0)
    (hsum : inp.genSummaryClicked = false) (hins : inp.genInsightsClicked = false)
    (hmcq : inp.genMcqClicked = false) (hridx : inp.reindexClicked = false)
    (hask : inp.askClicked = false) :
    (runApp env fs inp st).state =
      { st with uploaded_path := some (pathJoin upload_dir f.name) } ∧
    hasWarning (runApp env fs inp st).events = false ∧
    (runApp env fs inp st).err = none := by
  have hbeq : (pathJoin upload_dir f.name == "") = false := pathJoin_ne_empty _ _
  unfold runApp runUpload runDocumentTab runActionsTab runChatTab stepSeq
    summaryStep insightsStep mcqStep reindexStep
  simp [hf, hbeq, fsRead_fsWrite, hsum, hins, hmcq, hridx, hask, strTruthy,
    hasWarning_append, hasWarning_previewBlock, hasWarning_renderChat,
    hasWarning_downloads, hasWarning_cons, hasWarning_nil]

/-- A session state with a tracked document and cached results of all
kinds. -/
def stC6 : SessionState :=
  { uploaded_path := some (pathJoin upload_dir "doc.csv")
    chat_history := [⟨"q1", "a1"⟩]
    last_summary := some "old summary"
    last_insights := some "old insights"
    last_mcqs := some "old mcqs" }

theorem C6_witness :
    (runApp envOk fsDoc inpC5 stC6).state =
      { stC6 with uploaded_path := some (pathJoin upload_dir fileC5.name) } ∧
    hasWarning (runApp envOk fsDoc inpC5 stC6).events = false ∧
    (runApp envOk fsDoc inpC5 stC6).err = none :=
  C6_second_upload envOk fsDoc inpC5 stC6 fileC5 (pathJoin upload_dir "doc.csv")
    rfl rfl rfl rfl rfl rfl rfl

/-! ### C7: external failure propagates -/

/-- The five document-dependent actions. -/
inductive ActionKind where
  | summary
  | insights
  | mcq
  | reindex
  | ask
deriving DecidableEq

/-- Inputs triggering exactly one action, with no new upload. -/
def pressOnly (k : ActionKind) (i : Fin 3) (x : ℚ) (y : ℤ) (q : String) : Inputs :=
  { uploaded_file := none
    modelIndex := i
    tempRaw := x
    chunkRaw := y
    genSummaryClicked := match k with | ActionKind.summary => true | _ => false
    genInsightsClicked := match k with | ActionKind.insights => true | _ => false
    genMcqClicked := match k with | ActionKind.mcq => true | _ => false
    reindexClicked := match k with | ActionKind.reindex => true | _ => false
    askClicked := match k with | ActionKind.ask => true | _ => false
    query := q }

/-- The external call an action performs, as the script performs it. -/
def actionResult (env : Env) (k : ActionKind) (p m : String) (t : ℚ) (cs : ℤ)
    (q : String) : Except String String :=
  match k with
  | ActionKind.summary => env.generate_summary p m t
  | ActionKind.insights => env.generate_insights p m cs
  | ActionKind.mcq => env.generate_mcq p 10 m
  | ActionKind.reindex => env.build_retrieval_index p cs
  | ActionKind.ask => env.answer_question p q m

/-- The call record an action leaves in the event list. -/
def callOf (k : ActionKind) (p m : String) (t : ℚ) (cs : ℤ) (q : String) : ExtCall :=
  match k with
  | ActionKind.summary => ExtCall.summary p m t
  | ActionKind.insights => ExtCall.insights p m cs
  | ActionKind.mcq => ExtCall.mcq p 10 m
  | ActionKind.reindex => ExtCall.index p cs
  | ActionKind.ask => ExtCall.ask p q m

/-- C7: for each document-dependent action, if its external call raises,
the error propagates uncaught out of the run (no local catch, no retry: the
function is called exactly once and nothing runs after the failure), and
the session state — in particular the corresponding result field — is left
completely unchanged: no partial output is stored. -/
theorem C7_error_propagation (env : Env) (fs : FS) (st : SessionState) (k : ActionKind)
    (p q e : String) (bytes : List Nat) (i : Fin 3) (x : ℚ) (y : ℤ)
    (hpath : st.uploaded_path = some p) (hne : p ≠ "")
    (hfile : fsRead fs p = some bytes) (hq : q ≠ "")
    (herr : actionResult env k p (selectedModel i) (selectedTemp x) (selectedChunk y) q
      = Except.error e) :
    (runApp env fs (pressOnly k i x y q) st).err = some e ∧
    (runApp env fs (pressOnly k i x y q) st).state = st ∧
    allCalls (runApp env fs (pressOnly k i x y q) st).events =
      [callOf k p (selectedModel i) (selectedTemp x) (selectedChunk y) q] := by
  have hbeq : (p == "") = false := beq_eq_false_iff_ne.mpr hne
  have hqbeq : (q == "") = false := beq_eq_false_iff_ne.mpr hq
  cases k <;>
  · simp only [actionResult] at herr
    unfold runApp runUpload runDocumentTab runActionsTab runChatTab stepSeq
      summaryStep insightsStep mcqStep reindexStep pressOnly callOf
    simp [hpath, hbeq, hqbeq, hfile, herr, strTruthy, allCalls_append,
      allCalls_previewBlock, allCalls_cons, allCalls_nil, allCalls_renderChat,
      allCalls_downloads]

/-- An oracle environment whose summary generation raises. -/
def envFail : Env :=
  { envOk with generate_summary := fun _ _ _ => Except.error "boom" }

theorem C7_witness :
    (runApp envFail fsDoc (pressOnly ActionKind.summary 0 (1 / 2) 1000 "q") stDoc).err =
      some "boom" ∧
    (runApp envFail fsDoc (pressOnly ActionKind.summary 0 (1 / 2) 1000 "q") stDoc).state =
      stDoc ∧
    allCalls
      (runApp envFail fsDoc (pressOnly ActionKind.summary 0 (1 / 2) 1000 "q") stDoc).events =
      [callOf ActionKind.summary (pathJoin upload_dir "doc.csv") (selectedModel 0)
        (selectedTemp (1 / 2)) (selectedChunk 1000) "q"] :=
  C7_error_propagation envFail fsDoc stDoc ActionKind.summary
    (pathJoin upload_dir "doc.csv") "q" "boom" [65, 66] 0 (1 / 2) 1000
    rfl (by decide) rfl (by decide) rfl

/-! ### C8: preview is defensive -/

/-- C8: the preview never escalates into an uncaught exception: a failure
to open or read the file yields exactly the generic "Preview unavailable"
message; a readable non-PDF file always yields the replacement-decoded
first 2000 bytes (decoding is total, so it cannot fail); and whenever the
file is readable the whole Document tab — preview included — raises
nothing. -/
theorem C8_preview_defensive (env : Env) (fs : FS) (p fn : String) :
    (fsRead fs p = none →
      previewBlock env fs p fn = [UIEvent.errorBox "❌ Preview unavailable."]) ∧
    (∀ b, fsRead fs p = some b → strEndsWith fn ".pdf" = false →
      previewBlock env fs p fn = [UIEvent.textBox (env.decodeReplace (b.take 2000))]) ∧
    (∀ inp st bytes, st.uploaded_path = some p → p ≠ "" → fsRead fs p = some bytes →
      (runDocumentTab env fs inp st).2 = none) := by
  refine ⟨?_, ?_, ?_⟩
  · intro h
    unfold previewBlock
    simp [h]
  · intro b hb hpdf
    unfold previewBlock
    simp [hb, hpdf]
  · intro inp st bytes hpathSt hne hb
    have hbeq : (p == "") = false := beq_eq_false_iff_ne.mpr hne
    unfold runDocumentTab
    simp [hpathSt, hbeq, hb]

theorem C8_witness :
    previewBlock envOk [] "x" "x.csv" = [UIEvent.errorBox "❌ Preview unavailable."] ∧
    previewBlock envOk fsDoc (pathJoin upload_dir "doc.csv") "doc.csv" =
      [UIEvent.textBox (envOk.decodeReplace (List.take 2000 [65, 66]))] ∧
    (runDocumentTab envOk fsDoc inpC2 stDoc).2 = none :=
  ⟨(C8_preview_defensive envOk [] "x" "x.csv").1 rfl,
   (C8_preview_defensive envOk fsDoc (pathJoin upload_dir "doc.csv") "doc.csv").2.1
     [65, 66] rfl (by decide),
   (C8_preview_defensive envOk fsDoc (pathJoin upload_dir "doc.csv") "doc.csv").2.2
     inpC2 stDoc [65, 66] rfl (by decide) rfl⟩

end RagApp
